import Mathlib

/-!
Shallow embedding of `src/adsb_proxy.py`, a single-route Flask proxy that
relays one fixed upstream GET request and shapes the response.

The handler `adsb` is modelled as a pure function of the outcome of its one
outbound call (`requests.get(ADSB_LOL_URL, timeout=5)` either returns an
upstream response or raises an exception).  The returned record also carries
the handler's observable effects: the list of outbound requests it issued and
the lines it printed to diagnostic output.
-/

namespace AdsbProxy

/-- Latitude constant `DZ_LAT = 42.703153`.  Python renders this float literal
back to the identical decimal text when interpolated into the f-string
(shortest round-trip repr), so we embed it as that text. -/
def DZ_LAT : String := "42.703153"

/-- Longitude constant `DZ_LON = -87.958641`, embedded as its interpolated
decimal text, as for `DZ_LAT`. -/
def DZ_LON : String := "-87.958641"

/-- The fixed upstream URL, built once at module load:
`f"https://api.adsb.lol/v2/point/{DZ_LAT}/{DZ_LON}/20"`. -/
def ADSB_LOL_URL : String :=
  "https://api.adsb.lol/v2/point/" ++ DZ_LAT ++ "/" ++ DZ_LON ++ "/20"

/-- An upstream HTTP response as surfaced by the `requests` library:
`r.status_code`, the body bytes `r.content`, and the declared response
headers (content type, caching, encoding, ...), which the handler never
reads. -/
structure UpstreamResponse where
  status_code : Nat
  content : List Nat
  headers : List (String × String)
  deriving DecidableEq

/-- A Python exception as observed by the handler: its `str(e)` form (used in
the error envelope body) and its `repr(e)` form (used in the log line, which
shows the exception kind and message). -/
structure PyExc where
  toStr : String
  toRepr : String
  deriving DecidableEq

/-- Outcome of the single outbound call inside the `try` block: either an
upstream response, or any raised exception (timeout, DNS failure, connection
reset, ...). -/
inductive Outcome where
  | ok (r : UpstreamResponse)
  | exc (e : PyExc)
  deriving DecidableEq

/-- Body payload of a Flask `Response`: the success path passes the upstream
bytes `r.content` through; the failure path passes a Python `str`. -/
inductive RespBody where
  | bytes (b : List Nat)
  | text (s : String)
  deriving DecidableEq

/-- A Flask `Response` as constructed by the handler: the positional body,
the `status` argument, the `mimetype` argument (which becomes the response
content type), and the headers set afterwards via `resp.headers[...]`. -/
structure Response where
  body : RespBody
  status : Nat
  mimetype : String
  headers : List (String × String)
  deriving DecidableEq

/-- The one outbound request the handler issues:
`requests.get(ADSB_LOL_URL, timeout=5)`. -/
structure OutboundRequest where
  method : String
  url : String
  timeout : Nat
  deriving DecidableEq

/-- Result of one invocation of the handler body: the response returned to
the inbound caller, the outbound requests issued, and the diagnostic lines
printed. -/
structure HandlerResult where
  response : Response
  calls : List OutboundRequest
  logs : List String
  deriving DecidableEq

/-- The failure-path body template:
`'\x7b"error":"ADS-B proxy exception","detail":"%s"\x7d' % str(e)`.
Note the code interpolates `str(e)` verbatim, with no JSON escaping. -/
def errorBody (e : PyExc) : String :=
  "\x7b\"error\":\"ADS-B proxy exception\",\"detail\":\"" ++ e.toStr ++ "\"\x7d"

/-- The error-envelope shape as the specification describes it:
`\x7b"error":"ADS-B proxy exception","detail":"<stringified error>"\x7d` with a
hole for the detail field.  Used only to compare the specification's claim
about the failure body against `errorBody`. -/
def errorEnvelope (detail : String) : String :=
  "\x7b\"error\":\"ADS-B proxy exception\",\"detail\":\"" ++ detail ++ "\"\x7d"

/-- The view function `adsb()` of `src/adsb_proxy.py`, as a function of the
outcome of its single outbound call.  Success path: forward
`r.content` and `r.status_code` with mimetype `application/json` and the CORS
header.  Failure path: print one diagnostic line
(`print("ADS-B proxy exception:", repr(e))`), then return a 500 with the
error envelope, the same mimetype and the same CORS header. -/
def adsb (o : Outcome) : HandlerResult :=
  let req : OutboundRequest := { method := "GET", url := ADSB_LOL_URL, timeout := 5 }
  match o with
  | .ok r =>
      { response :=
          { body := .bytes r.content
            status := r.status_code
            mimetype := "application/json"
            headers := [("Access-Control-Allow-Origin", "*")] }
        calls := [req]
        logs := [] }
  | .exc e =>
      { response :=
          { body := .text (errorBody e)
            status := 500
            mimetype := "application/json"
            headers := [("Access-Control-Allow-Origin", "*")] }
        calls := [req]
        logs := ["ADS-B proxy exception: " ++ e.toRepr] }

/-- An inbound HTTP request.  The view function takes no arguments and never
consults the Flask request object, so none of these fields reach `adsb`. -/
structure InboundRequest where
  method : String
  path : String
  headers : List (String × String)
  query : List (String × String)
  deriving DecidableEq

/-- What the framework returns for one inbound request: the inbound status,
the outbound calls made, and whether the view function body ran. -/
structure DispatchResult where
  status : Nat
  outboundCalls : List OutboundRequest
  handlerInvoked : Bool
  deriving DecidableEq

/-- Modelled from the spec: Flask routing for the single rule
`@app.route("/adsb")`.  Flask's default for a route with no `methods`
argument is `GET`, plus the automatic `HEAD` (served by the view) and the
automatic `OPTIONS` (answered by the framework without running the view);
any other method on a matching path is rejected with 405 Method Not Allowed
without invoking the view, and unknown paths get 404. -/
def dispatch (req : InboundRequest) (o : Outcome) : DispatchResult :=
  if req.path = "/adsb" then
    if req.method = "GET" ∨ req.method = "HEAD" then
      let h := adsb o
      { status := h.response.status, outboundCalls := h.calls, handlerInvoked := true }
    else if req.method = "OPTIONS" then
      { status := 200, outboundCalls := [], handlerInvoked := false }
    else
      { status := 405, outboundCalls := [], handlerInvoked := false }
  else
    { status := 404, outboundCalls := [], handlerInvoked := false }

/-- Whitespace characters of the JSON grammar (RFC 8259). -/
def isJsonWs (c : Char) : Bool :=
  c = ' ' || c = '\t' || c = '\n' || c = '\r'

/-- Drop leading JSON whitespace. -/
def skipWs : List Char → List Char
  | [] => []
  | c :: cs => if isJsonWs c then skipWs cs else c :: cs

/-- Hexadecimal digit test for `\u` escapes. -/
def isHexDig (c : Char) : Bool :=
  c.isDigit || ('a' ≤ c && c ≤ 'f') || ('A' ≤ c && c ≤ 'F')

/-- Consume the remainder of a JSON string literal (the opening quote already
consumed), honouring the escape sequences of RFC 8259; returns the input
after the closing quote, or `none` if the text is not a valid string
literal. -/
def stringRest : Nat → List Char → Option (List Char)
  | 0, _ => none
  | _ + 1, [] => none
  | f + 1, c :: cs =>
    if c = '"' then some cs
    else if c = '\\' then
      match cs with
      | [] => none
      | e :: cs2 =>
        if e = 'u' then
          match cs2 with
          | a :: b :: c2 :: d :: cs3 =>
            if isHexDig a && isHexDig b && isHexDig c2 && isHexDig d then
              stringRest f cs3
            else none
          | _ => none
        else if e = '"' || e = '\\' || e = '/' || e = 'b' || e = 'f' ||
                e = 'n' || e = 'r' || e = 't' then
          stringRest f cs2
        else none
    else if c.toNat < 32 then none
    else stringRest f cs

/-- Consume a maximal run of decimal digits. -/
def munchDigits : List Char → List Char
  | [] => []
  | c :: cs => if c.isDigit then munchDigits cs else c :: cs

/-- Consume one or more decimal digits. -/
def digits1 : List Char → Option (List Char)
  | [] => none
  | c :: cs => if c.isDigit then some (munchDigits cs) else none

/-- Consume the optional fraction part of a JSON number. -/
def fracPart : List Char → Option (List Char)
  | '.' :: cs => digits1 cs
  | l => some l

/-- Consume the optional exponent part of a JSON number. -/
def expPart : List Char → Option (List Char)
  | 'e' :: '+' :: cs => digits1 cs
  | 'e' :: '-' :: cs => digits1 cs
  | 'e' :: cs => digits1 cs
  | 'E' :: '+' :: cs => digits1 cs
  | 'E' :: '-' :: cs => digits1 cs
  | 'E' :: cs => digits1 cs
  | l => some l

/-- Consume a JSON number (RFC 8259 `number` production). -/
def numberTok (l : List Char) : Option (List Char) :=
  let afterSign := match l with
    | '-' :: cs => cs
    | cs => cs
  let afterInt : Option (List Char) := match afterSign with
    | '0' :: cs => some cs
    | c :: cs => if c.isDigit then some (munchDigits cs) else none
    | [] => none
  match afterInt with
  | none => none
  | some l2 =>
    match fracPart l2 with
    | none => none
    | some l3 => expPart l3

mutual

/-- Consume one JSON value, fuelled; returns the remaining input. -/
def valueTok : Nat → List Char → Option (List Char)
  | 0, _ => none
  | f + 1, l =>
    match skipWs l with
    | [] => none
    | c :: cs =>
      if c = '"' then stringRest (cs.length + 1) cs
      else if c = '\x7b' then
        match skipWs cs with
        | '\x7d' :: rest => some rest
        | l2 => membersTok f l2
      else if c = '[' then
        match skipWs cs with
        | ']' :: rest => some rest
        | l2 => elementsTok f l2
      else if c = 't' then
        match cs with
        | 'r' :: 'u' :: 'e' :: rest => some rest
        | _ => none
      else if c = 'f' then
        match cs with
        | 'a' :: 'l' :: 's' :: 'e' :: rest => some rest
        | _ => none
      else if c = 'n' then
        match cs with
        | 'u' :: 'l' :: 'l' :: rest => some rest
        | _ => none
      else numberTok (c :: cs)

/-- Consume one or more `string : value` object members followed by the
closing brace. -/
def membersTok : Nat → List Char → Option (List Char)
  | 0, _ => none
  | f + 1, l =>
    match skipWs l with
    | '"' :: cs =>
      match stringRest (cs.length + 1) cs with
      | none => none
      | some rest =>
        match skipWs rest with
        | ':' :: rest2 =>
          match valueTok f rest2 with
          | none => none
          | some rest3 =>
            match skipWs rest3 with
            | ',' :: rest4 => membersTok f rest4
            | '\x7d' :: rest4 => some rest4
            | _ => none
        | _ => none
    | _ => none

/-- Consume one or more array elements followed by the closing bracket. -/
def elementsTok : Nat → List Char → Option (List Char)
  | 0, _ => none
  | f + 1, l =>
    match valueTok f l with
    | none => none
    | some rest =>
      match skipWs rest with
      | ',' :: rest2 => elementsTok f rest2
      | ']' :: rest2 => some rest2
      | _ => none

end

/-- A string is well-formed JSON when it is one RFC 8259 value surrounded by
optional whitespace.  The fuel `s.length + 1` is ample: every recursive step
consumes at least one character. -/
def jsonValid (s : String) : Bool :=
  match valueTok (s.length + 1) s.toList with
  | some rest => (skipWs rest).isEmpty
  | none => false

/-- Two outcomes that agree on everything the claim calls the outcome's
observable part: same status code and body bytes for responses, same string
forms for exceptions. -/
def sameObservable : Outcome → Outcome → Prop
  | .ok r, .ok r2 => r.status_code = r2.status_code ∧ r.content = r2.content
  | .exc e, .exc e2 => e.toStr = e2.toStr ∧ e.toRepr = e2.toRepr
  | _, _ => False

/-- C1: when the outbound call completes with status code S and body bytes B,
the handler returns status S, body exactly B (unmodified), content type
`application/json`, and the header `Access-Control-Allow-Origin: *`. -/
theorem c1_success_passthrough (r : UpstreamResponse) :
    (adsb (.ok r)).response.status = r.status_code ∧
    (adsb (.ok r)).response.body = .bytes r.content ∧
    (adsb (.ok r)).response.mimetype = "application/json" ∧
    (adsb (.ok r)).response.headers = [("Access-Control-Allow-Origin", "*")] :=
  ⟨rfl, rfl, rfl, rfl⟩

/-- C2 (amended): on any outbound-call exception the handler returns status
500 with content type `application/json`, the CORS header, and body exactly
the envelope `\x7b"error":"ADS-B proxy exception","detail":"<str(e)>"\x7d`; the
detail field is exactly `str(e)`, which may be empty. -/
theorem c2_failure_envelope (e : PyExc) :
    (adsb (.exc e)).response.status = 500 ∧
    (adsb (.exc e)).response.body = .text (errorEnvelope e.toStr) ∧
    (adsb (.exc e)).response.mimetype = "application/json" ∧
    (adsb (.exc e)).response.headers = [("Access-Control-Allow-Origin", "*")] :=
  ⟨rfl, rfl, rfl, rfl⟩

/-- C2 counterexample: an exception whose `str` form is empty (possible in
Python, e.g. `ConnectionError()`) yields the envelope with an empty detail
field, so the claim that the detail field is a non-empty string fails: the
body equals the envelope with detail `""`, and no other detail string
produces this body. -/
theorem c2_empty_detail_counterexample :
    (adsb (.exc { toStr := "", toRepr := "" })).response.body =
      .text (errorEnvelope "") ∧
    ∀ d : String, errorEnvelope d = errorEnvelope "" → d = "" := by
  refine ⟨rfl, ?_⟩
  intro d h
  have h1 := congrArg String.data h
  simp [errorEnvelope, String.data_append] at h1
  cases d
  simp_all

/-- C3: every response, on both paths, carries content type
`application/json` and the `Access-Control-Allow-Origin: *` header. -/
theorem c3_always_json_cors (o : Outcome) :
    (adsb o).response.mimetype = "application/json" ∧
    (adsb o).response.headers = [("Access-Control-Allow-Origin", "*")] := by
  cases o <;> exact ⟨rfl, rfl⟩

/-- C4 (code bug): an outbound failure whose `str(e)` contains a double
quote — the code interpolates `str(e)` into the JSON template with no
escaping — produces the 500 response with a body that is not well-formed
JSON, contradicting the stated propagation policy. -/
theorem c4_unescaped_detail_breaks_json :
    (adsb (.exc { toStr := "bad \"url\"", toRepr := "x" })).response.status = 500 ∧
    (adsb (.exc { toStr := "bad \"url\"", toRepr := "x" })).response.body =
      .text (errorBody { toStr := "bad \"url\"", toRepr := "x" }) ∧
    jsonValid (errorBody { toStr := "bad \"url\"", toRepr := "x" }) = false :=
  ⟨rfl, rfl, by decide⟩

/-- C5: for every inbound GET request to `/adsb`, the outbound call targets
the single fixed URL (host `api.adsb.lol`, path `v2/point/<lat>/<lon>/20`
with the fixed coordinates interpolated),
assembled from the fixed latitude, longitude and radius constants, and is
independent of the inbound request. -/
theorem c5_fixed_url (req : InboundRequest) (o : Outcome)
    (hPath : req.path = "/adsb") (hMethod : req.method = "GET") :
    (dispatch req o).outboundCalls =
      [{ method := "GET", url := ADSB_LOL_URL, timeout := 5 }] ∧
    ADSB_LOL_URL = "https://api.adsb.lol/v2/point/" ++ DZ_LAT ++ "/" ++ DZ_LON ++ "/20" ∧
    ADSB_LOL_URL = "https://api.adsb.lol/v2/point/42.703153/-87.958641/20" := by
  refine ⟨?_, rfl, by decide⟩
  cases o <;> simp [dispatch, hPath, hMethod, adsb]

/-- C5 witness: the theorem instantiated at a concrete GET request and a
concrete upstream outcome. -/
theorem c5_fixed_url_witness :
    (dispatch { method := "GET", path := "/adsb", headers := [], query := [] }
        (.ok { status_code := 200, content := [], headers := [] })).outboundCalls =
      [{ method := "GET", url := ADSB_LOL_URL, timeout := 5 }] ∧
    ADSB_LOL_URL = "https://api.adsb.lol/v2/point/" ++ DZ_LAT ++ "/" ++ DZ_LON ++ "/20" ∧
    ADSB_LOL_URL = "https://api.adsb.lol/v2/point/42.703153/-87.958641/20" :=
  c5_fixed_url _ _ rfl rfl

/-- C6: the outbound request is issued with a 5-second timeout bound, and a
call abandoned by that bound (a raised timeout exception, like any other
exception) is handled on the failure path, yielding the 500 envelope. -/
theorem c6_timeout_bound (o : Outcome) (e : PyExc) :
    ((adsb o).calls.all fun c => c.timeout == 5) = true ∧
    (adsb (.exc e)).response.status = 500 ∧
    (adsb (.exc e)).response.body = .text (errorBody e) := by
  cases o <;> exact ⟨rfl, rfl, rfl⟩

/-- C7: every invocation issues exactly one outbound call; on success
nothing is logged; on failure exactly one diagnostic line is printed,
containing the failure's kind and message (its `repr`). -/
theorem c7_effects (o : Outcome) :
    (adsb o).calls.length = 1 ∧
    (∀ r, o = .ok r → (adsb o).logs = []) ∧
    (∀ e, o = .exc e → (adsb o).logs = ["ADS-B proxy exception: " ++ e.toRepr]) := by
  cases o with
  | ok r =>
      refine ⟨rfl, fun _ _ => rfl, fun e h => ?_⟩
      exact Outcome.noConfusion h
  | exc e =>
      refine ⟨rfl, fun r h => ?_, fun e2 h => ?_⟩
      · exact Outcome.noConfusion h
      · injection h with h2
        subst h2
        rfl

/-- C7 witness: the theorem instantiated at a concrete failure outcome,
showing the single log line. -/
theorem c7_effects_witness :
    (adsb (.exc { toStr := "t", toRepr := "ReadTimeout()" })).logs =
      ["ADS-B proxy exception: " ++ "ReadTimeout()"] :=
  (c7_effects (.exc { toStr := "t", toRepr := "ReadTimeout()" })).2.2
    { toStr := "t", toRepr := "ReadTimeout()" } rfl

/-- C8: the handler is deterministic in the outcome of the outbound call:
two invocations whose outcomes agree on status code and body bytes (or on
the exception's string forms) produce identical inbound responses. -/
theorem c8_deterministic (o o2 : Outcome) (h : sameObservable o o2) :
    (adsb o).response = (adsb o2).response := by
  cases o with
  | ok r =>
      cases o2 with
      | ok r2 =>
          obtain ⟨h1, h2⟩ := h
          simp [adsb, h1, h2]
      | exc e2 => exact h.elim
  | exc e =>
      cases o2 with
      | ok r2 => exact h.elim
      | exc e2 =>
          obtain ⟨h1, h2⟩ := h
          simp [adsb, errorBody, h1]

/-- C8 witness: two upstream responses identical in status and body but with
different upstream headers yield the same inbound response. -/
theorem c8_deterministic_witness :
    (adsb (.ok { status_code := 200, content := [123],
                 headers := [("Content-Type", "text/plain")] })).response =
      (adsb (.ok { status_code := 200, content := [123], headers := [] })).response :=
  c8_deterministic _ _ ⟨rfl, rfl⟩

/-- C9: the inbound response depends only on the upstream status code and
body bytes; the upstream's declared headers never influence it. -/
theorem c9_headers_irrelevant (r r2 : UpstreamResponse)
    (hStatus : r.status_code = r2.status_code) (hContent : r.content = r2.content) :
    (adsb (.ok r)).response = (adsb (.ok r2)).response := by
  simp [adsb, hStatus, hContent]

/-- C9 witness: the theorem instantiated at two concrete upstream responses
that differ only in their declared headers. -/
theorem c9_headers_irrelevant_witness :
    (adsb (.ok { status_code := 503, content := [1, 2, 3],
                 headers := [("Content-Type", "text/html"), ("Cache-Control", "no-store")] })).response =
      (adsb (.ok { status_code := 503, content := [1, 2, 3],
                   headers := [("Content-Encoding", "gzip")] })).response :=
  c9_headers_irrelevant _ _ rfl rfl

/-- C10: an inbound request to `/adsb` whose method is none of GET, HEAD or
OPTIONS is rejected by the framework with 405 Method Not Allowed; the view
body never runs and no outbound call is made. -/
theorem c10_method_not_allowed (req : InboundRequest) (o : Outcome)
    (hPath : req.path = "/adsb")
    (hMethod : ¬(req.method = "GET" ∨ req.method = "HEAD" ∨ req.method = "OPTIONS")) :
    dispatch req o = { status := 405, outboundCalls := [], handlerInvoked := false } := by
  push_neg at hMethod
  simp [dispatch, hPath, hMethod.1, hMethod.2.1, hMethod.2.2]

/-- C10 witness: a POST to `/adsb` is answered 405 with no outbound call and
without invoking the view. -/
theorem c10_method_not_allowed_witness :
    dispatch { method := "POST", path := "/adsb", headers := [], query := [] }
        (.ok { status_code := 200, content := [], headers := [] }) =
      { status := 405, outboundCalls := [], handlerInvoked := false } :=
  c10_method_not_allowed _ _ rfl (by decide)

end AdsbProxy
